import Mathlib

/-!
Verification of the `chauffage` thermostat controller (`start.py`).

The controller is a single-threaded MQTT event loop.  We embed the state
held by `MqttClient` (`self.status`, `self.command_sent`, `self.forced_ts`,
`self.queue`) and the two inbound event handlers (`on_connect`,
`on_message` on the SENSOR and RESULT topics) as a pure step function
`step : CState → Event → StepOut` returning the new state, the list of
published power commands, and the optional "time left" value logged while
the override window is active.

Timestamps (`dt.timestamp(date)`, `time.time()`) and temperatures are
modelled as rationals; the parse stage of `on_message` is modelled by
`Option` fields on the sensor event (`none` = the field was missing or
failed to parse, in which case the corresponding local variable in the
Python handler is never bound, the truthiness guard raises `NameError`, and
the outer `except` swallows it — leaving all state untouched, which is what
the `| _, _, _ => ⟨st, [], none⟩` catch-all encodes).
-/

attribute [local semireducible] Rat.add Rat.sub Rat.mul Rat.inv Rat.ofScientific

/-- Heater power state as reported by the device: the `POWER` field of a
RESULT message, `"ON"` or `"OFF"`.  The Python `self.status` starts as
`None`, modelled as `Option Power` with `none` = UNKNOWN. -/
inductive Power where
  | ON : Power
  | OFF : Power
deriving DecidableEq, Repr

/-- Payloads published to `cmnd/tasmota_9DA6D1/POWER`: the startup probe
(`"Hello world!"`), `"ON"` (from `poweron`) and `"OFF"` (from `poweroff`). -/
inductive Cmd where
  | probe : Cmd
  | turnOn : Cmd
  | turnOff : Cmd
deriving DecidableEq, Repr

/-- A parsed Python `datetime`: `epoch` is `dt.timestamp(date)` in seconds,
`hour`, `minute`, `second` are the local wall-clock components used by
`is_confort`.  The components are carried separately because the source
reads them separately. -/
structure PyDate where
  epoch : ℚ
  hour : ℕ
  minute : ℕ
  second : ℕ
deriving DecidableEq, Repr

/-- One telemetry sample, the dict appended to `self.queue`:
`{'date': date, 'temperature': temperature, 'humidity': humidity}`. -/
structure Reading where
  date : PyDate
  temperature : ℚ
  humidity : ℚ
deriving DecidableEq, Repr

/-- The mutable fields of `MqttClient`: `self.status`, `self.command_sent`,
`self.forced_ts` and `self.queue` (the bounded history deque). -/
structure CState where
  status : Option Power
  command_sent : Bool
  forced_ts : ℚ
  queue : List Reading
deriving DecidableEq, Repr

/-- The setpoint `consigne = 21.8` from the source. -/
def consigne : ℚ := 21.8

/-- The hysteresis band `hyst = 0.2` from the source. -/
def hyst : ℚ := 0.2

/-- Append semantics of `collections.deque(maxlen=cap)`: the new element is
appended on the right and, when the capacity would be exceeded, elements
are evicted from the left until the length is `cap` again. -/
def dequeAppend {α : Type} (cap : ℕ) (q : List α) (x : α) : List α :=
  let q2 := q ++ [x]
  if cap < q2.length then q2.drop (q2.length - cap) else q2

/-- The comfort schedule `is_confort(date)` from the source:
true when `6 <= date.hour < 8` or `19 <= date.hour < 21`. -/
def is_confort (date : PyDate) : Bool :=
  if 6 ≤ date.hour ∧ date.hour < 8 then true
  else if 19 ≤ date.hour ∧ date.hour < 21 then true
  else false

/-- Python `round` on a rational: nearest integer, ties to even
(used for the "time left" log line). -/
def pyRound (q : ℚ) : ℤ :=
  let f := q.floor
  let r := q - (f : ℚ)
  if r < 1/2 then f
  else if 1/2 < r then f + 1
  else if f % 2 = 0 then f else f + 1

/-- The override-window test.  The source takes the automatic branch when
`self.forced_ts < dt.timestamp(date) - 3600`; `is_overridden` is the
negation, i.e. the condition under which the decision logic is skipped. -/
def is_overridden (forced_ts now : ℚ) : Bool :=
  !(decide (forced_ts < now - 3600))

/-- The value logged while overridden:
`round((3600 - (dt.timestamp(date) - self.forced_ts))/60)`. -/
def time_left (forced_ts now : ℚ) : ℤ :=
  pyRound ((3600 - (now - forced_ts)) / 60)

/-- Result of processing one inbound event: the new controller state, the
power commands published during the handler, and the "time left" value
logged when the override branch was taken. -/
structure StepOut where
  state : CState
  cmds : List Cmd
  timeLog : Option ℤ
deriving DecidableEq, Repr

/-- The `poweron` method: sets `command_sent = True` and publishes `"ON"`. -/
def poweron (st : CState) : CState × List Cmd :=
  ({ st with command_sent := true }, [Cmd.turnOn])

/-- The `poweroff` method: sets `command_sent = True` and publishes `"OFF"`. -/
def poweroff (st : CState) : CState × List Cmd :=
  ({ st with command_sent := true }, [Cmd.turnOff])

/-- The SENSOR branch of `on_message`.  The three `Option` arguments are
the outcomes of the three guarded parses (`Time`, temperature, humidity);
`none` means the parse failed, the local variable stayed unbound and the
truthiness guard raised `NameError`, caught by the handler's outer
`except`, so nothing happens.  When all three are bound, the guard
`if temperature and humidity and date:` additionally drops readings whose
temperature or humidity equals `0` (Python falsiness); a `datetime` is
always truthy.  Inside the guard the reading is appended to the queue,
then either the override log line is emitted or the comfort/hysteresis
decision runs. -/
def handleSensor (st : CState) :
    Option PyDate → Option ℚ → Option ℚ → StepOut
  | some date, some temperature, some humidity =>
    if temperature ≠ 0 ∧ humidity ≠ 0 then
      let st1 := { st with
        queue := dequeAppend 100 st.queue ⟨date, temperature, humidity⟩ }
      if is_overridden st1.forced_ts date.epoch then
        ⟨st1, [], some (time_left st1.forced_ts date.epoch)⟩
      else
        if is_confort date then
          if st1.status = some Power.ON then
            if consigne + hyst < temperature then
              let p := poweroff st1
              ⟨p.1, p.2, none⟩
            else ⟨st1, [], none⟩
          else
            if temperature < consigne - hyst then
              let p := poweron st1
              ⟨p.1, p.2, none⟩
            else ⟨st1, [], none⟩
        else
          let p := poweroff st1
          ⟨p.1, p.2, none⟩
    else ⟨st, [], none⟩
  | _, _, _ => ⟨st, [], none⟩

/-- Inbound events seen by the controller: the CONNACK callback, a SENSOR
telemetry message (with the three parse outcomes), and a RESULT message
(`now` is `time.time()` at arrival; `power?` is the `POWER` field, `none`
when the key is absent and the message is discarded). -/
inductive Event where
  | connect : Event
  | sensor (date? : Option PyDate) (temp? : Option ℚ) (hum? : Option ℚ) : Event
  | result (now : ℚ) (power? : Option Power) : Event

/-- True on RESULT events that carry a `POWER` field or not. -/
def Event.isResult : Event → Bool
  | .result _ _ => true
  | _ => false

/-- One step of the event loop: `on_connect` subscribes and publishes the
status probe with `command_sent = True`; SENSOR messages go through
`handleSensor`; RESULT messages with a `POWER` field update `status`, and
set `forced_ts = now` exactly when no self-issued command was pending. -/
def step (st : CState) : Event → StepOut
  | .connect => ⟨{ st with command_sent := true }, [Cmd.probe], none⟩
  | .sensor date? temp? hum? => handleSensor st date? temp? hum?
  | .result now power? =>
    match power? with
    | none => ⟨st, [], none⟩
    | some p =>
      if st.command_sent then
        ⟨{ st with command_sent := false, status := some p }, [], none⟩
      else
        ⟨{ st with status := some p, forced_ts := now }, [], none⟩

/-- The state constructed in `MqttClient.__init__`: `status = None`,
`command_sent = False`, `forced_ts = 0`, queue loaded from the pickle
(empty on first run, hence the parameter). -/
def init (q0 : List Reading) : CState :=
  ⟨none, false, 0, q0⟩

/-- Run a list of inbound events, keeping only the state. -/
def runEvents (st : CState) (evts : List Event) : CState :=
  evts.foldl (fun s e => (step s e).state) st

/-- C3: a power-result event carrying state `S` clears `awaiting_ack` and
sets `last_power = S` without touching `last_forced_at` when a self-issued
command was pending, and sets both `last_power = S` and
`last_forced_at = now` when none was. -/
theorem C3_result_update (st : CState) (now : ℚ) (p : Power) :
    step st (.result now (some p)) =
      if st.command_sent then
        ⟨{ st with command_sent := false, status := some p }, [], none⟩
      else
        ⟨{ st with status := some p, forced_ts := now }, [], none⟩ := by
  simp only [step]

/-- C7: a telemetry event with a missing or unparseable timestamp,
temperature or humidity is discarded whole: nothing is appended to the
history, no command is published, and the control state is unchanged (the
handler's outer `except` absorbs the `NameError`). -/
theorem C7_malformed_discarded (st : CState) (date? : Option PyDate)
    (temp? hum? : Option ℚ)
    (hbad : date? = none ∨ temp? = none ∨ hum? = none) :
    step st (.sensor date? temp? hum?) = ⟨st, [], none⟩ := by
  rcases hbad with h | h | h
  · subst h; cases temp? <;> cases hum? <;> rfl
  · subst h; cases date? <;> cases hum? <;> rfl
  · subst h; cases date? <;> cases temp? <;> rfl

/-- Witness for C7 at a concrete malformed event (timestamp missing). -/
theorem C7_witness :
    step (init []) (.sensor none (some 20) (some 50)) = ⟨init [], [], none⟩ :=
  C7_malformed_discarded (init []) none (some 20) (some 50) (Or.inl rfl)

/-- C10: a telemetry event whose temperature or humidity parses to exactly
`0` is silently dropped by the truthiness guard
`if temperature and humidity and date:` — no history append, no override
check, no policy run, no command. -/
theorem C10_zero_reading_dropped (st : CState) (date : PyDate)
    (temperature humidity : ℚ)
    (hzero : temperature = 0 ∨ humidity = 0) :
    step st (.sensor (some date) (some temperature) (some humidity)) =
      ⟨st, [], none⟩ := by
  have h : ¬(temperature ≠ 0 ∧ humidity ≠ 0) := by
    rcases hzero with h | h <;> simp [h]
  simp only [step, handleSensor, if_neg h]

/-- Witness for C10: a valid-looking reading with temperature exactly `0`
during a comfort hour, which would otherwise turn the heater on. -/
theorem C10_witness :
    step (init []) (.sensor (some ⟨1000000000, 7, 0, 0⟩) (some 0) (some 50)) =
      ⟨init [], [], none⟩ :=
  C10_zero_reading_dropped (init []) ⟨1000000000, 7, 0, 0⟩ 0 50 (Or.inl rfl)

/-- C8: `is_confort` depends only on the hour component (minutes and
seconds are ignored) and holds exactly for hours 6, 7, 19 and 20. -/
theorem C8_confort_hours :
    (∀ date : PyDate, is_confort date = true ↔
        (date.hour = 6 ∨ date.hour = 7 ∨ date.hour = 19 ∨ date.hour = 20))
  ∧ (∀ d1 d2 : PyDate, d1.hour = d2.hour → is_confort d1 = is_confort d2) := by
  constructor
  · intro date
    simp only [is_confort]
    split_ifs with h1 h2 <;> simp <;> omega
  · intro d1 d2 h
    simp only [is_confort, h]

/-- Witness for C8: minutes and seconds do not matter at hour 6, and hour
20 with arbitrary minutes/seconds is a comfort hour. -/
theorem C8_witness :
    is_confort ⟨0, 6, 30, 15⟩ = is_confort ⟨0, 6, 0, 0⟩
  ∧ is_confort ⟨0, 20, 59, 59⟩ = true :=
  ⟨C8_confort_hours.2 ⟨0, 6, 30, 15⟩ ⟨0, 6, 0, 0⟩ rfl,
   (C8_confort_hours.1 ⟨0, 20, 59, 59⟩).mpr (by decide)⟩

/-- C1: in automatic mode during a comfort period, the hysteresis rules of
`on_message` hold with `consigne = 21.8` and `hyst = 0.2`: heater `ON` and
`temperature > consigne + hyst` publishes `OFF`; heater not `ON` and
`temperature < consigne - hyst` publishes `ON`; and inside the band
`consigne - hyst ≤ temperature ≤ consigne + hyst` nothing is published,
whatever the current power state. -/
theorem C1_hysteresis (st : CState) (date : PyDate) (temperature humidity : ℚ)
    (htv : temperature ≠ 0) (hhv : humidity ≠ 0)
    (hauto : is_overridden st.forced_ts date.epoch = false)
    (hconf : is_confort date = true) :
    ((st.status = some Power.ON → consigne + hyst < temperature →
        (step st (.sensor (some date) (some temperature) (some humidity))).cmds
          = [Cmd.turnOff])
  ∧ (st.status ≠ some Power.ON → temperature < consigne - hyst →
        (step st (.sensor (some date) (some temperature) (some humidity))).cmds
          = [Cmd.turnOn])
  ∧ (consigne - hyst ≤ temperature → temperature ≤ consigne + hyst →
        (step st (.sensor (some date) (some temperature) (some humidity))).cmds
          = [])) := by
  have hg : temperature ≠ 0 ∧ humidity ≠ 0 := ⟨htv, hhv⟩
  refine ⟨?_, ?_, ?_⟩
  · intro hs ht
    simp [step, handleSensor, hg, hauto, hconf, hs, ht, poweroff]
  · intro hs ht
    simp [step, handleSensor, hg, hauto, hconf, hs, ht, poweron]
  · intro h1 h2
    have hoff : ¬(consigne + hyst < temperature) := not_lt.mpr h2
    have hon : ¬(temperature < consigne - hyst) := not_lt.mpr h1
    by_cases hs : st.status = some Power.ON <;>
      simp [step, handleSensor, hg, hauto, hconf, hs, hoff, hon]

/-- Witness for C1: heater `ON`, comfort hour, temperature 22.5 above the
band, so the loop publishes `OFF`. -/
theorem C1_witness :
    (step ⟨some Power.ON, false, 0, []⟩
        (.sensor (some ⟨1000000000, 7, 0, 0⟩) (some 22.5) (some 50))).cmds
      = [Cmd.turnOff] :=
  (C1_hysteresis ⟨some Power.ON, false, 0, []⟩ ⟨1000000000, 7, 0, 0⟩ 22.5 50
    (by decide) (by decide) (by decide) (by decide)).1 rfl (by decide)

/-- C4: outside a comfort period, automatic mode publishes `OFF`
unconditionally: `poweroff` runs for every temperature and every current
power state. -/
theorem C4_no_comfort_off (st : CState) (date : PyDate)
    (temperature humidity : ℚ)
    (htv : temperature ≠ 0) (hhv : humidity ≠ 0)
    (hauto : is_overridden st.forced_ts date.epoch = false)
    (hconf : is_confort date = false) :
    (step st (.sensor (some date) (some temperature) (some humidity))).cmds
      = [Cmd.turnOff] := by
  have hg : temperature ≠ 0 ∧ humidity ≠ 0 := ⟨htv, hhv⟩
  simp [step, handleSensor, hg, hauto, hconf, poweroff]

/-- Witness for C4: midday (hour 12), temperature far below the setpoint,
heater state unknown — the loop still publishes `OFF`. -/
theorem C4_witness :
    (step ⟨none, false, 0, []⟩
        (.sensor (some ⟨1000000000, 12, 0, 0⟩) (some 15) (some 50))).cmds
      = [Cmd.turnOff] :=
  C4_no_comfort_off ⟨none, false, 0, []⟩ ⟨1000000000, 12, 0, 0⟩ 15 50
    (by decide) (by decide) (by decide) (by decide)

/-- One `deque(maxlen=cap)` append keeps the length within `cap`. -/
theorem dequeAppend_length_le {α : Type} (cap : ℕ) (q : List α) (x : α)
    (h : q.length ≤ cap) : (dequeAppend cap q x).length ≤ cap := by
  simp only [dequeAppend, List.length_append, List.length_cons, List.length_nil]
  split_ifs with hc <;> simp [List.length_drop] <;> omega

/-- Folding `deque(maxlen=cap)` appends preserves the length bound. -/
theorem foldl_dequeAppend_length {α : Type} (cap : ℕ) (xs : List α)
    (q : List α) (h : q.length ≤ cap) :
    (xs.foldl (dequeAppend cap) q).length ≤ cap := by
  induction xs generalizing q with
  | nil => simpa
  | cons x xs ih => exact ih _ (dequeAppend_length_le cap q x h)

set_option maxRecDepth 4000 in
/-- C6: the history deque never exceeds its capacity of 100 after any
sequence of appends, eviction is FIFO (a full deque drops its oldest entry
when a new one arrives), and 150 appends into an empty deque leave exactly
the last 100 readings in original order. -/
theorem C6_history_bound :
    (∀ (q xs : List Reading), q.length ≤ 100 →
        ((xs.foldl (dequeAppend 100) q).length ≤ 100))
  ∧ (∀ (q : List Reading) (x : Reading), q.length = 100 →
        dequeAppend 100 q x = q.tail ++ [x])
  ∧ ((List.range 150).foldl (dequeAppend 100) ([] : List ℕ)
        = (List.range 150).drop 50) := by
  refine ⟨fun q xs h => foldl_dequeAppend_length 100 xs q h, ?_, by decide⟩
  intro q x h
  simp only [dequeAppend]
  rw [if_pos (by simp [h])]
  simp [h, List.drop_append_of_le_length, List.drop_one]

/-- Witness for C6: a full deque of 100 identical readings evicts its head
on the next append, and the length bound holds on a concrete run. -/
theorem C6_witness :
    (([⟨⟨0, 0, 0, 0⟩, 20, 50⟩] : List Reading).foldl
        (dequeAppend 100) []).length ≤ 100
  ∧ dequeAppend 100 (List.replicate 100 (⟨⟨0, 0, 0, 0⟩, 20, 50⟩ : Reading))
        ⟨⟨0, 0, 0, 0⟩, 20, 50⟩
      = (List.replicate 100 (⟨⟨0, 0, 0, 0⟩, 20, 50⟩ : Reading)).tail
          ++ [⟨⟨0, 0, 0, 0⟩, 20, 50⟩] :=
  ⟨C6_history_bound.1 [] [⟨⟨0, 0, 0, 0⟩, 20, 50⟩] (by decide),
   C6_history_bound.2.1 (List.replicate 100 ⟨⟨0, 0, 0, 0⟩, 20, 50⟩)
     ⟨⟨0, 0, 0, 0⟩, 20, 50⟩ (by simp)⟩

/-- Counterexample for C2 as stated: the claim requires the override to be
strict (`now - last_forced_at < 3600`), but at exactly 3600 elapsed
seconds the source condition `forced_ts < timestamp - 3600` is false, so
the loop is still overridden: it publishes nothing and logs 0 minutes
left, although `4600 - 1000 < 3600` fails. -/
theorem C2_counterexample :
    is_overridden 1000 4600 = true
  ∧ ¬((4600 : ℚ) - 1000 < 3600)
  ∧ (step ⟨some Power.OFF, false, 1000, []⟩
        (.sensor (some ⟨4600, 7, 0, 0⟩) (some 20) (some 50))).cmds = []
  ∧ (step ⟨some Power.OFF, false, 1000, []⟩
        (.sensor (some ⟨4600, 7, 0, 0⟩) (some 20) (some 50))).timeLog
      = some 0 := by
  refine ⟨by decide, by decide, by decide, by decide⟩

/-- C2 amended: `is_overridden(now)` holds iff `now - last_forced_at`
is at most 3600 seconds (non-strict, with `last_forced_at = 0` when never
set), so `is_overridden(now + 3601)` is still false; while overridden a
telemetry event only appends to the history — no command is issued and the
logged remaining time is `round((3600 - (now - last_forced_at)) / 60)`
minutes. -/
theorem C2_amended (st : CState) (date : PyDate) (temperature humidity : ℚ)
    (htv : temperature ≠ 0) (hhv : humidity ≠ 0)
    (hov : is_overridden st.forced_ts date.epoch = true) :
    (∀ forced now : ℚ, (is_overridden forced now = true ↔ now - forced ≤ 3600))
  ∧ (step st (.sensor (some date) (some temperature) (some humidity))).cmds = []
  ∧ (step st (.sensor (some date) (some temperature) (some humidity))).state
      = { st with queue := dequeAppend 100 st.queue ⟨date, temperature, humidity⟩ }
  ∧ (step st (.sensor (some date) (some temperature) (some humidity))).timeLog
      = some (pyRound ((3600 - (date.epoch - st.forced_ts)) / 60)) := by
  have hg : temperature ≠ 0 ∧ humidity ≠ 0 := ⟨htv, hhv⟩
  refine ⟨?_, ?_, ?_, ?_⟩
  · intro forced now
    simp only [is_overridden, Bool.not_eq_true', decide_eq_false_iff_not, not_lt]
    constructor <;> intro h <;> linarith
  · simp [step, handleSensor, hg, hov]
  · simp [step, handleSensor, hg, hov]
  · simp [step, handleSensor, hg, hov, time_left]

/-- Witness for C2 amended: forced 1000 seconds before a reading taken at
epoch 2000, so the override is active and the log shows
`round(2600/60) = 43` minutes left. -/
theorem C2_witness :
    (step ⟨some Power.ON, false, 1000, []⟩
        (.sensor (some ⟨2000, 7, 0, 0⟩) (some 20) (some 50))).timeLog
      = some 43 :=
  ((C2_amended ⟨some Power.ON, false, 1000, []⟩ ⟨2000, 7, 0, 0⟩ 20 50
    (by decide) (by decide) (by decide)).2.2.2).trans (by decide)

/-- Counterexample for C5 as stated: from the reachable state obtained by
connecting and receiving the startup `OFF` result (`last_power = OFF`), a
valid telemetry event outside the comfort window makes the loop publish a
redundant `OFF` command even though the heater is already known `OFF`. -/
theorem C5_counterexample :
    (runEvents (init []) [Event.connect, Event.result 100 (some Power.OFF)]).status
      = some Power.OFF
  ∧ (step (runEvents (init []) [Event.connect, Event.result 100 (some Power.OFF)])
        (.sensor (some ⟨1000000000, 12, 0, 0⟩) (some 20) (some 50))).cmds
      = [Cmd.turnOff] := by
  refine ⟨by decide, by decide⟩

/-- C5 amended: a `TURN_ON` command is only ever published when
`last_power ≠ ON`, and during a comfort period a `TURN_OFF` is only
published when `last_power = ON`; outside a comfort period the loop
publishes `TURN_OFF` unconditionally, which may be redundant. -/
theorem C5_amended (st : CState) (date : PyDate) (temperature humidity : ℚ) :
    (Cmd.turnOn ∈
        (step st (.sensor (some date) (some temperature) (some humidity))).cmds →
      st.status ≠ some Power.ON)
  ∧ (is_confort date = true →
      Cmd.turnOff ∈
        (step st (.sensor (some date) (some temperature) (some humidity))).cmds →
      st.status = some Power.ON) := by
  constructor
  · intro hmem
    simp only [step, handleSensor] at hmem
    split_ifs at hmem with h1 h2 h3 h4 h5 <;>
      simp_all [poweron, poweroff]
  · intro hc hmem
    simp only [step, handleSensor] at hmem
    split_ifs at hmem with h1 h2 h3 h4 h5 <;>
      simp_all [poweron, poweroff]

/-- Witness for C5 amended: a cold comfort-period reading from the unknown
power state publishes `ON`, and indeed the state was not `ON`. -/
theorem C5_witness :
    (⟨none, false, 0, ([] : List Reading)⟩ : CState).status ≠ some Power.ON :=
  (C5_amended ⟨none, false, 0, []⟩ ⟨1000000000, 7, 0, 0⟩ 20 50).1 (by decide)

/-- Processing a SENSOR message never changes `forced_ts` and never clears
a pending `command_sent` flag (only `poweron`/`poweroff` touch it, and
they set it). -/
theorem handleSensor_keeps_probe (st : CState) (date? : Option PyDate)
    (temp? hum? : Option ℚ) (h1 : st.command_sent = true) :
    (handleSensor st date? temp? hum?).state.command_sent = true
  ∧ (handleSensor st date? temp? hum?).state.forced_ts = st.forced_ts := by
  cases date? <;> cases temp? <;> cases hum? <;>
    first
    | exact ⟨h1, rfl⟩
    | · simp only [handleSensor]
        split_ifs <;> simp_all [poweron, poweroff]

/-- Any event that is not a RESULT preserves a pending probe: once
`command_sent = true` and `forced_ts = 0`, they stay so. -/
theorem step_keeps_probe (st : CState) (e : Event) (hres : e.isResult = false)
    (h1 : st.command_sent = true) (h0 : st.forced_ts = 0) :
    (step st e).state.command_sent = true ∧ (step st e).state.forced_ts = 0 := by
  cases e with
  | connect => exact ⟨rfl, h0⟩
  | sensor date? temp? hum? =>
    have h := handleSensor_keeps_probe st date? temp? hum? h1
    exact ⟨h.1, h.2.trans h0⟩
  | result now power? => simp [Event.isResult] at hres

/-- Along any RESULT-free run, a pending probe and `forced_ts = 0`
persist. -/
theorem runEvents_keeps_probe (evts : List Event) (st : CState)
    (hres : ∀ e ∈ evts, e.isResult = false)
    (h1 : st.command_sent = true) (h0 : st.forced_ts = 0) :
    (runEvents st evts).command_sent = true
  ∧ (runEvents st evts).forced_ts = 0 := by
  induction evts generalizing st with
  | nil => exact ⟨h1, h0⟩
  | cons e es ih =>
    have he := hres e (List.mem_cons_self e es)
    have h := step_keeps_probe st e he h1 h0
    exact ih (step st e).state (fun x hx => hres x (List.mem_cons_of_mem e hx))
      h.1 h.2

/-- C9: starting from the initial state and the connect handler (which
sets `command_sent = true` before any result can arrive), after any
RESULT-free sequence of events the very first power result is attributed
to the controller's own startup probe: it stores the reported state in
`status`, clears `command_sent`, leaves `forced_ts` at 0 (never set), and
therefore triggers no override at any realistic time. -/
theorem C9_first_result (q0 : List Reading) (evts : List Event) (now : ℚ)
    (p : Power) (hres : ∀ e ∈ evts, e.isResult = false) (hnow : 3600 < now) :
    (runEvents (step (init q0) Event.connect).state evts).command_sent = true
  ∧ (step (runEvents (step (init q0) Event.connect).state evts)
        (Event.result now (some p))).state.status = some p
  ∧ (step (runEvents (step (init q0) Event.connect).state evts)
        (Event.result now (some p))).state.forced_ts = 0
  ∧ (step (runEvents (step (init q0) Event.connect).state evts)
        (Event.result now (some p))).state.command_sent = false
  ∧ is_overridden
      (step (runEvents (step (init q0) Event.connect).state evts)
        (Event.result now (some p))).state.forced_ts now = false := by
  have hconn1 : (step (init q0) Event.connect).state.command_sent = true := rfl
  have hconn0 : (step (init q0) Event.connect).state.forced_ts = 0 := rfl
  have hpre := runEvents_keeps_probe evts _ hres hconn1 hconn0
  have hlt : (0 : ℚ) < now - 3600 := by linarith
  set stPre := runEvents (step (init q0) Event.connect).state evts with hstPre
  refine ⟨hpre.1, ?_, ?_, ?_, ?_⟩ <;>
    simp [step, hpre.1, hpre.2, is_overridden, hlt]

/-- Witness for C9: connect, one telemetry event, then the first `OFF`
result at a realistic clock time. -/
theorem C9_witness :
    (step (runEvents (step (init []) Event.connect).state
        [Event.sensor (some ⟨4000, 12, 0, 0⟩) (some 20) (some 50)])
      (Event.result 1000000 (some Power.OFF))).state.forced_ts = 0 :=
  (C9_first_result [] [Event.sensor (some ⟨4000, 12, 0, 0⟩) (some 20) (some 50)]
    1000000 Power.OFF
    (by intro e he; simp only [List.mem_singleton] at he; subst he; rfl)
    (by decide)).2.2.1
